import Mathlib

/-!
Verification of the teamsync-monorepo authorization / hybrid-authentication
core: a shallow embedding of the auth controller, jwt utility, auth
middleware, role guard and member service, with theorems about the spec's
testable properties.
-/

namespace TeamSync

/-! ## Error model (src/src/utils/app-error.ts)

`AppError` subclasses carry an HTTP status code: NotFoundException 404,
UnauthorizedException 401, BadRequestException 400. -/

inductive AppError
  | notFound (msg : String)
  | unauthorized (msg : String)
  | badRequest (msg : String)
deriving DecidableEq

def AppError.statusCode : AppError → Nat
  | .notFound _ => 404
  | .unauthorized _ => 401
  | .badRequest _ => 400

def AppError.message : AppError → String
  | .notFound m => m
  | .unauthorized m => m
  | .badRequest m => m

/-! ## Roles and permissions -/

inductive Role
  | OWNER
  | ADMIN
  | MEMBER
deriving DecidableEq

inductive Permission
  | CREATE_WORKSPACE
  | DELETE_WORKSPACE
  | EDIT_WORKSPACE
  | MANAGE_WORKSPACE_SETTINGS
  | ADD_MEMBER
  | CHANGE_MEMBER_ROLE
  | REMOVE_MEMBER
  | CREATE_PROJECT
  | EDIT_PROJECT
  | DELETE_PROJECT
  | CREATE_TASK
  | EDIT_TASK
  | DELETE_TASK
  | VIEW_ONLY
deriving DecidableEq

/-- Modelled from the spec: the static role → permission table
(`RolePermissions` in `role-permission.ts`, a file whose source is not in
the repository snapshot; only its consumers `role-guard.ts` and
`role.model.ts` are). The spec fixes a closed role enumeration
OWNER/ADMIN/MEMBER with explicitly enumerated permission lists ordered
OWNER ⊇ ADMIN ⊇ MEMBER in capability, OWNER holding `DELETE_WORKSPACE`
and MEMBER not. -/
def RolePermissions : Role → List Permission
  | .OWNER =>
      [.CREATE_WORKSPACE, .DELETE_WORKSPACE, .EDIT_WORKSPACE,
       .MANAGE_WORKSPACE_SETTINGS, .ADD_MEMBER, .CHANGE_MEMBER_ROLE,
       .REMOVE_MEMBER, .CREATE_PROJECT, .EDIT_PROJECT, .DELETE_PROJECT,
       .CREATE_TASK, .EDIT_TASK, .DELETE_TASK, .VIEW_ONLY]
  | .ADMIN =>
      [.ADD_MEMBER, .CREATE_PROJECT, .EDIT_PROJECT, .DELETE_PROJECT,
       .CREATE_TASK, .EDIT_TASK, .DELETE_TASK, .MANAGE_WORKSPACE_SETTINGS,
       .VIEW_ONLY]
  | .MEMBER =>
      [.VIEW_ONLY, .CREATE_TASK, .EDIT_TASK]

/-- Embedding of `roleGuard` (src/src/utils/role-guard.ts): looks the role
up in the permission table and checks that every required permission is
included; throws `UnauthorizedException` otherwise. -/
def roleGuard (role : Role) (requiredPermissions : List Permission) :
    Except AppError Unit :=
  let permissions := RolePermissions role
  let hasPermission :=
    requiredPermissions.all (fun permission => permissions.contains permission)
  if hasPermission then
    Except.ok ()
  else
    Except.error (AppError.unauthorized
      "You do not have the necessary permissions to perform this action")

/-! ## Token codec (src/server/src/utils/jwt.ts)

The `jsonwebtoken` library is an external collaborator (spec §6 "Token
codec"); it is embedded as an idealized MAC: the signature field of a
token is the tuple (payload, issuer, audience, expiry, secret), and
verification checks that the signature matches the carried fields and the
verifier's secret, then expiry, then issuer/audience. -/

structure JWTPayload where
  id : Nat
  email : String
  role : Option String
deriving DecidableEq

structure SignedToken where
  payload : JWTPayload
  iss : String
  aud : String
  exp : Nat
  sig : JWTPayload × String × String × Nat × Nat
deriving DecidableEq

inductive VerifyError
  | badSignature
  | expired
  | badClaims
deriving DecidableEq

def signToken (secret : Nat) (payload : JWTPayload) (ttlSeconds : Nat)
    (iss aud : String) (now : Nat) : SignedToken :=
  { payload := payload, iss := iss, aud := aud, exp := now + ttlSeconds,
    sig := (payload, iss, aud, now + ttlSeconds, secret) }

def verifyToken (secret : Nat) (iss aud : String) (now : Nat)
    (tok : SignedToken) : Except VerifyError JWTPayload :=
  if tok.sig ≠ (tok.payload, tok.iss, tok.aud, tok.exp, secret) then
    Except.error VerifyError.badSignature
  else if tok.exp ≤ now then
    Except.error VerifyError.expired
  else if tok.iss ≠ iss then
    Except.error VerifyError.badClaims
  else if tok.aud ≠ aud then
    Except.error VerifyError.badClaims
  else
    Except.ok tok.payload

def JWT_ISSUER : String := "team-sync-app"

def JWT_AUDIENCE : String := "team-sync-users"

def JWT_TTL_SECONDS : Nat := 24 * 60 * 60

/-- Embedding of `generateJWT`: signs the payload with the fixed issuer,
audience and 24h TTL. -/
def generateJWT (secret : Nat) (now : Nat) (payload : JWTPayload) :
    SignedToken :=
  signToken secret payload JWT_TTL_SECONDS JWT_ISSUER JWT_AUDIENCE now

/-- Embedding of `verifyJWT`: verifies against the fixed issuer and
audience. -/
def verifyJWT (secret : Nat) (now : Nat) (tok : SignedToken) :
    Except VerifyError JWTPayload :=
  verifyToken secret JWT_ISSUER JWT_AUDIENCE now tok

/-! ## Cookie channel (src/server/src/utils/jwt.ts)

Two named artifacts: `auth_token` (httpOnly, carries the signed token) and
`auth_user` (client-readable, carries the display fields {id, email,
role}). -/

structure CookieJar where
  auth_token : Option SignedToken
  auth_user : Option (Nat × String × Option String)
deriving DecidableEq

/-- Embedding of `setAuthCookies`: mints a fresh token for the payload and
writes both cookies. -/
def setAuthCookies (secret now : Nat) (user : JWTPayload) : CookieJar :=
  { auth_token := some (generateJWT secret now user),
    auth_user := some (user.id, user.email, user.role) }

/-- Embedding of `clearAuthCookies`: clears both cookies (with attribute
sets matching issuance). -/
def clearAuthCookies (_jar : CookieJar) : CookieJar :=
  { auth_token := none, auth_user := none }

/-! ## Credential Store rows (src/src/models/user.model.ts) -/

structure UserDoc where
  _id : Nat
  email : String
  isActive : Bool
  currentWorkspace : Option Nat
deriving DecidableEq

/-! ## Hybrid authentication resolver (`requireAuth` middleware)

Embedding of the `requireAuth` auth middleware: session first
(`req.user`), then the `auth_token` cookie, verified with `verifyJWT` and
re-hydrated from the user collection. The catch-block clears both cookies
only for errors that are not `UnauthorizedException` instances — i.e. for
`jwt.verify` failures; the absent-token and user-not-found branches throw
`UnauthorizedException` and are rethrown with no clearing. -/

structure AuthRequest where
  user : Option UserDoc
  auth_token : Option SignedToken
deriving DecidableEq

deriving instance DecidableEq for Except

structure AuthOutcome where
  result : Except AppError UserDoc
  clearedAuthToken : Bool
  clearedAuthUser : Bool
  userStoreReads : Nat
  tokenVerifications : Nat
deriving DecidableEq

def requireAuth (secret now : Nat) (userStore : List UserDoc)
    (req : AuthRequest) : AuthOutcome :=
  match req.user with
  | some u =>
      { result := Except.ok u, clearedAuthToken := false,
        clearedAuthUser := false, userStoreReads := 0,
        tokenVerifications := 0 }
  | none =>
      match req.auth_token with
      | none =>
          { result := Except.error
              (AppError.unauthorized "Unauthorized. Please log in."),
            clearedAuthToken := false, clearedAuthUser := false,
            userStoreReads := 0, tokenVerifications := 0 }
      | some tok =>
          match verifyJWT secret now tok with
          | Except.error _ =>
              { result := Except.error (AppError.unauthorized
                  "Invalid authentication token. Please log in again."),
                clearedAuthToken := true, clearedAuthUser := true,
                userStoreReads := 0, tokenVerifications := 1 }
          | Except.ok decoded =>
              match userStore.find? (fun u => u._id == decoded.id) with
              | none =>
                  { result := Except.error (AppError.unauthorized
                      "User not found. Please log in again."),
                    clearedAuthToken := false, clearedAuthUser := false,
                    userStoreReads := 1, tokenVerifications := 1 }
              | some u =>
                  { result := Except.ok u, clearedAuthToken := false,
                    clearedAuthUser := false, userStoreReads := 1,
                    tokenVerifications := 1 }

/-! ## Workspace / membership store (member.service.ts, workspace service,
member.model.ts) -/

structure Workspace where
  _id : Nat
  inviteCode : String
deriving DecidableEq

structure Member where
  userId : Nat
  workspaceId : Nat
  role : Nat
deriving DecidableEq

structure RoleDoc where
  _id : Nat
  name : Role
deriving DecidableEq

structure DB where
  users : List UserDoc
  workspaces : List Workspace
  members : List Member
  roles : List RoleDoc
deriving DecidableEq

/-- Embedding of `getMemberRoleInWorkspace`
(src/src/services/member.service.ts): looks the workspace up first and
throws `NotFoundException` when absent; then looks the membership up and
throws `UnauthorizedException` when absent; otherwise populates the role
and returns `member.role?.name`. -/
def getMemberRoleInWorkspace (db : DB) (userId workspaceId : Nat) :
    Except AppError (Option Role) :=
  match db.workspaces.find? (fun w => w._id == workspaceId) with
  | none => Except.error (AppError.notFound "Workspace not found")
  | some _ =>
      match db.members.find?
          (fun m => m.userId == userId && m.workspaceId == workspaceId) with
      | none =>
          Except.error
            (AppError.unauthorized "You are not a member of this workspace")
      | some member =>
          Except.ok
            ((db.roles.find? (fun r => r._id == member.role)).map
              (fun r => r.name))

/-- Embedding of `joinWorkspaceByInviteService`: finds the workspace by
invite code (`NotFoundException` if absent), rejects with
`BadRequestException` when a membership for (userId, workspace) already
exists, resolves the MEMBER role and inserts the new membership row. -/
def joinWorkspaceByInviteService (db : DB) (userId : Nat)
    (inviteCode : String) : Except AppError (DB × Nat × Role) :=
  match db.workspaces.find? (fun w => w.inviteCode == inviteCode) with
  | none =>
      Except.error (AppError.notFound "Invalid invite code or workspace not found")
  | some workspace =>
      match db.members.find?
          (fun m => m.userId == userId && m.workspaceId == workspace._id) with
      | some _ =>
          Except.error
            (AppError.badRequest "You are already a member of this workspace")
      | none =>
          match db.roles.find? (fun r => r.name == Role.MEMBER) with
          | none => Except.error (AppError.notFound "Role not found")
          | some role =>
              let newMember : Member :=
                { userId := userId, workspaceId := workspace._id,
                  role := role._id }
              Except.ok
                ({ db with members := db.members ++ [newMember] },
                 workspace._id, role.name)

/-- Embedding of `createWorkspaceService`: requires the user and the OWNER
role to exist, saves a workspace under a storage-generated fresh id, adds
the creator as OWNER member and points the user's `currentWorkspace` at
the new workspace. -/
def createWorkspaceService (db : DB) (userId freshId : Nat)
    (inviteCode : String) : Except AppError (DB × Workspace) :=
  match db.users.find? (fun u => u._id == userId) with
  | none => Except.error (AppError.notFound "User not found")
  | some _ =>
      match db.roles.find? (fun r => r.name == Role.OWNER) with
      | none => Except.error (AppError.notFound "Owner role not found")
      | some ownerRole =>
          let workspace : Workspace := { _id := freshId, inviteCode := inviteCode }
          let member : Member :=
            { userId := userId, workspaceId := freshId, role := ownerRole._id }
          Except.ok
            ({ db with
                workspaces := db.workspaces ++ [workspace],
                members := db.members ++ [member],
                users := db.users.map (fun u =>
                  if u._id == userId then
                    { u with currentWorkspace := some freshId }
                  else u) },
             workspace)

/-! ## Logout (src/server/src/controllers/auth.controller.ts,
`logOutController`)

Clears both cookies first, then best-effort destroys the session: a
destruction error is logged in the destroy callback and deliberately not
returned, then `req.user` is cleared and 200 is sent unconditionally. The
`destroyFails` flag models the session store reporting an error to the
destroy callback (in which case the session row survives). -/

structure RequestCtx where
  session : Option Nat
  user : Option UserDoc
  cookies : CookieJar
deriving DecidableEq

structure LogoutResult where
  ctx : RequestCtx
  status : Nat
  body : String
  sessionErrorLogged : Bool
deriving DecidableEq

def logOutController (destroyFails : Bool) (req : RequestCtx) :
    LogoutResult :=
  let cookies := clearAuthCookies req.cookies
  let destroyed :=
    match req.session with
    | some s => if destroyFails then (some s, true) else (none, false)
    | none => (none, false)
  { ctx := { session := destroyed.1, user := none, cookies := cookies },
    status := 200, body := "Logged out successfully",
    sessionErrorLogged := destroyed.2 }

/-! ## Login (auth.controller.ts `loginController`, passport.config.ts
local strategy, error-handler.middleware.ts)

The local strategy calls `done(null, user)` on success and
`done(error, false, { message })` when `verifyUserService` throws;
passport-local itself calls `done(null, false, info)` for missing
credentials. The controller: a non-null `err` goes to `next(err)` and
lands in the global error handler, which answers 500 for every non-
`SyntaxError` error (it never reads `AppError.statusCode`); a falsy
`user` answers 401; otherwise `req.logIn` establishes the session and
only its success callback writes the cookies and answers 200. -/

inductive LocalVerify
  | ok (user : UserDoc)
  | noUser (msg : Option String)
  | failed (e : AppError)
deriving DecidableEq

/-- Embedding of the global `errorHandler` middleware: every error that is
not a `SyntaxError` is answered with status 500 and the error's message
(the handler has no `AppError` branch). -/
def errorHandler (e : AppError) : Nat × String :=
  (500, e.message)

structure LoginResult where
  status : Nat
  body : String
  cookies : CookieJar
  session : Option Nat
deriving DecidableEq

def loginController (secret now : Nat) (verify : LocalVerify)
    (logInError : Option AppError) : LoginResult :=
  match verify with
  | LocalVerify.failed e =>
      { status := (errorHandler e).1, body := (errorHandler e).2,
        cookies := { auth_token := none, auth_user := none },
        session := none }
  | LocalVerify.noUser msg =>
      { status := 401, body := msg.getD "Invalid email or password",
        cookies := { auth_token := none, auth_user := none },
        session := none }
  | LocalVerify.ok user =>
      match logInError with
      | some e =>
          { status := (errorHandler e).1, body := (errorHandler e).2,
            cookies := { auth_token := none, auth_user := none },
            session := none }
      | none =>
          { status := 200, body := "Logged in successfully",
            cookies := setAuthCookies secret now
              { id := user._id, email := user.email, role := none },
            session := some user._id }

/-! ## Membership invariant and reachability -/

/-- At most one membership row per (identity, workspace) pair. -/
def atMostOneMembership (db : DB) : Prop :=
  ∀ u w,
    (db.members.filter
      (fun m => m.userId == u && m.workspaceId == w)).length ≤ 1

/-- States reachable by the membership-creating operations, from any
state with no membership rows. `create` carries the freshness of the
storage-generated workspace id (object ids are globally unique, so a
fresh id equals no existing workspace id and no workspace id referenced
by an existing membership row). -/
inductive Reachable : DB → Prop
  | init (db : DB) : db.members = [] → Reachable db
  | join (db db' : DB) (userId : Nat) (code : String) (wid : Nat)
      (r : Role) : Reachable db →
      joinWorkspaceByInviteService db userId code =
        Except.ok (db', wid, r) →
      Reachable db'
  | create (db db' : DB) (userId freshId : Nat) (code : String)
      (w : Workspace) : Reachable db →
      (∀ ws ∈ db.workspaces, ws._id ≠ freshId) →
      (∀ m ∈ db.members, m.workspaceId ≠ freshId) →
      createWorkspaceService db userId freshId code =
        Except.ok (db', w) →
      Reachable db'

/-! ## Concrete inputs used by the witnesses and counterexamples -/

def dbC1 : DB := { users := [], workspaces := [], members := [], roles := [] }

def dbC1w : DB :=
  { users := [], workspaces := [{ _id := 5, inviteCode := "c5" }],
    members := [], roles := [] }

def payloadC2 : JWTPayload := { id := 1, email := "a@b.c", role := none }

def tokC2 : SignedToken := generateJWT 0 0 payloadC2

def reqC2 : AuthRequest := { user := none, auth_token := some tokC2 }

def userC3 : UserDoc :=
  { _id := 1, email := "a@b.c", isActive := false, currentWorkspace := none }

def payloadC3 : JWTPayload := { id := 1, email := "a@b.c", role := none }

def reqC3 : AuthRequest :=
  { user := none, auth_token := some (generateJWT 0 0 payloadC3) }

def userC5 : UserDoc :=
  { _id := 2, email := "s@b.c", isActive := true, currentWorkspace := none }

def reqC5 : AuthRequest := { user := some userC5, auth_token := none }

def payloadC6 : JWTPayload := { id := 1, email := "a@b.c", role := none }

def dbC7init : DB :=
  { users := [], workspaces := [{ _id := 1, inviteCode := "x" }],
    members := [], roles := [] }

def memberC7 : Member := { userId := 3, workspaceId := 1, role := 9 }

def dbC7 : DB :=
  { users := [], workspaces := [{ _id := 1, inviteCode := "x" }],
    members := [memberC7], roles := [] }

def reqC8 : RequestCtx :=
  { session := some 7, user := some userC5,
    cookies := setAuthCookies 0 0 { id := 2, email := "s@b.c", role := none } }

/-! # Theorems -/

/-- C4: conjunctive permission-guard semantics — `roleGuard` succeeds iff
every required permission is contained in the role's permission list, and
any failure is the `UnauthorizedException`; the check is a pure function
of its inputs. -/
theorem roleGuard_conjunctive (role : Role) (required : List Permission) :
    (roleGuard role required = Except.ok () ↔
      ∀ p ∈ required, p ∈ RolePermissions role) ∧
    (roleGuard role required = Except.ok () ∨
      roleGuard role required = Except.error (AppError.unauthorized
        "You do not have the necessary permissions to perform this action")) := by
  have hiff :
      (required.all (fun permission =>
        (RolePermissions role).contains permission)) = true ↔
      ∀ p ∈ required, p ∈ RolePermissions role := by
    rw [List.all_eq_true]
    constructor
    · intro h p hp
      exact List.elem_iff.mp (h p hp)
    · intro h p hp
      exact List.elem_iff.mpr (h p hp)
  constructor
  · simp only [roleGuard]
    by_cases h :
        (required.all (fun permission =>
          (RolePermissions role).contains permission)) = true
    · rw [if_pos h]
      exact iff_of_true rfl (hiff.mp h)
    · rw [if_neg h]
      constructor
      · intro hcontra; cases hcontra
      · intro hall; exact absurd (hiff.mpr hall) h
  · simp only [roleGuard]
    by_cases h :
        (required.all (fun permission =>
          (RolePermissions role).contains permission)) = true
    · rw [if_pos h]; exact Or.inl rfl
    · rw [if_neg h]; exact Or.inr rfl

/-- C6: token round-trip — a token signed for any payload with any
positive TTL against the fixed issuer and audience verifies back to the
original payload at any time before its expiry. -/
theorem jwt_roundtrip (secret now t ttl : Nat) (payload : JWTPayload)
    (httl : 0 < ttl) (hbefore : t < now + ttl) :
    verifyJWT secret t
      (signToken secret payload ttl JWT_ISSUER JWT_AUDIENCE now) =
      Except.ok payload := by
  simp [verifyJWT, verifyToken, signToken]
  omega

/-- C8: revocation never fails user-visibly — logout clears both cookies
and answers 200 regardless of whether the session destroy fails; the
destroy failure is only logged. -/
theorem logout_never_fails (destroyFails : Bool) (req : RequestCtx) :
    (logOutController destroyFails req).ctx.cookies.auth_token = none ∧
    (logOutController destroyFails req).ctx.cookies.auth_user = none ∧
    (logOutController destroyFails req).status = 200 ∧
    (logOutController destroyFails req).sessionErrorLogged =
      (destroyFails && req.session.isSome) := by
  unfold logOutController clearAuthCookies
  cases req.session <;> cases destroyFails <;> simp

/-- C9: idempotence of revocation — running logout on the state produced
by logout yields that same state, and a successful logout leaves both
cookies and the session absent. -/
theorem logout_idempotent (destroyFails : Bool) (req : RequestCtx) :
    (logOutController destroyFails
        (logOutController destroyFails req).ctx).ctx =
      (logOutController destroyFails req).ctx ∧
    (logOutController false req).ctx.session = none ∧
    (logOutController false req).ctx.cookies =
      { auth_token := none, auth_user := none } := by
  unfold logOutController clearAuthCookies
  cases req.session <;> cases destroyFails <;> simp

/-- C10: evaluation at the failing input — a login attempt whose
local-credential verification throws `UnauthorizedException("Invalid
email or password")` (wrong password) is answered with status 500 through
the generic error handler, not 401; no cookie is set and no session is
established. -/
theorem login_wrong_password_responds_500 :
    loginController 0 0
      (LocalVerify.failed
        (AppError.unauthorized "Invalid email or password")) none =
      { status := 500, body := "Invalid email or password",
        cookies := { auth_token := none, auth_user := none },
        session := none } := rfl

/-- Witness for C4: the OWNER role passes a `DELETE_WORKSPACE` check, and
a MEMBER check is either success or the `UnauthorizedException`. -/
theorem roleGuard_conjunctive_witness :
    roleGuard Role.OWNER [Permission.DELETE_WORKSPACE] = Except.ok () ∧
    (roleGuard Role.MEMBER [Permission.DELETE_WORKSPACE] = Except.ok () ∨
      roleGuard Role.MEMBER [Permission.DELETE_WORKSPACE] =
        Except.error (AppError.unauthorized
          "You do not have the necessary permissions to perform this action")) :=
  ⟨(roleGuard_conjunctive Role.OWNER [Permission.DELETE_WORKSPACE]).1.mpr
      (by decide),
   (roleGuard_conjunctive Role.MEMBER [Permission.DELETE_WORKSPACE]).2⟩

/-- Witness for C6: a token signed at time 0 with TTL 1 verifies back to
its payload at time 0. -/
theorem jwt_roundtrip_witness :
    0 < 1 ∧
    verifyJWT 0 0 (signToken 0 payloadC6 1 JWT_ISSUER JWT_AUDIENCE 0) =
      Except.ok payloadC6 :=
  ⟨Nat.one_pos, jwt_roundtrip 0 0 0 1 payloadC6 Nat.one_pos (by decide)⟩

/-- C1 counterexample: with no workspaces at all (so in particular no
membership row for the pair (1, 1)), `getMemberRoleInWorkspace` fails
with `NotFoundException`, not `UnauthorizedException` — the claim's
"including when the workspace itself does not exist" is false. -/
theorem resolveRole_missing_workspace_not_found :
    dbC1.members.find?
      (fun m => m.userId == 1 && m.workspaceId == 1) = none ∧
    getMemberRoleInWorkspace dbC1 1 1 =
      Except.error (AppError.notFound "Workspace not found") :=
  ⟨rfl, rfl⟩

/-- C1 (amended): for every (identity, workspace) pair with no membership
row whose workspace exists, `getMemberRoleInWorkspace` fails with
`UnauthorizedException`, never `NotFoundException`. -/
theorem resolveRole_enumeration_resistant (db : DB) (uid wid : Nat)
    (hw : (db.workspaces.find? (fun w => w._id == wid)).isSome = true)
    (hm : db.members.find?
      (fun m => m.userId == uid && m.workspaceId == wid) = none) :
    getMemberRoleInWorkspace db uid wid =
      Except.error
        (AppError.unauthorized "You are not a member of this workspace") := by
  rcases hfind : db.workspaces.find? (fun w => w._id == wid) with _ | w
  · rw [hfind] at hw
    simp at hw
  · simp only [getMemberRoleInWorkspace, hfind, hm]

/-- Witness for C1: identity 1 has no membership in the existing
workspace 5, and the resolver answers `UnauthorizedException`. -/
theorem resolveRole_enumeration_resistant_witness :
    getMemberRoleInWorkspace dbC1w 1 5 =
      Except.error
        (AppError.unauthorized "You are not a member of this workspace") :=
  resolveRole_enumeration_resistant dbC1w 1 5 rfl rfl

/-- C2: with no session attached, a present-but-invalid token (bad
signature, expired, wrong issuer/audience) makes `requireAuth` clear both
credential cookies and reject with `UnauthorizedException`, while an
absent token makes it reject without clearing either cookie. -/
theorem requireAuth_clears_on_invalid_token (secret now : Nat)
    (store : List UserDoc) (req : AuthRequest) (hu : req.user = none) :
    (∀ tok e, req.auth_token = some tok →
      verifyJWT secret now tok = Except.error e →
      (requireAuth secret now store req).clearedAuthToken = true ∧
      (requireAuth secret now store req).clearedAuthUser = true ∧
      (requireAuth secret now store req).result =
        Except.error (AppError.unauthorized
          "Invalid authentication token. Please log in again.")) ∧
    (req.auth_token = none →
      (requireAuth secret now store req).clearedAuthToken = false ∧
      (requireAuth secret now store req).clearedAuthUser = false ∧
      (requireAuth secret now store req).result =
        Except.error
          (AppError.unauthorized "Unauthorized. Please log in.")) := by
  constructor
  · intro tok e ht hv
    simp [requireAuth, hu, ht, hv]
  · intro ht
    simp [requireAuth, hu, ht]

/-- Witness for C2: a token signed at time 0 is expired at time 90000
(past the 24h TTL); `requireAuth` clears both cookies and rejects. -/
theorem requireAuth_clears_on_invalid_token_witness :
    (requireAuth 0 90000 [] reqC2).clearedAuthToken = true ∧
    (requireAuth 0 90000 [] reqC2).clearedAuthUser = true ∧
    (requireAuth 0 90000 [] reqC2).result =
      Except.error (AppError.unauthorized
        "Invalid authentication token. Please log in again.") :=
  (requireAuth_clears_on_invalid_token 0 90000 [] reqC2 rfl).1 tokC2
    VerifyError.expired rfl (by decide)

/-- C3 counterexample: a deactivated but still existing user is accepted
by the token-fallback path — `requireAuth` never consults `isActive`, so
the claim that an inactive identity is rejected is false on the code. -/
theorem requireAuth_accepts_inactive_user :
    userC3.isActive = false ∧
    (requireAuth 0 0 [userC3] reqC3).result = Except.ok userC3 :=
  ⟨rfl, by decide⟩

/-- C3 (amended): after a token verifies, the resolver performs exactly
one Credential Store read for the id embedded in the token, and accepts
exactly when that identity still exists (whatever its `isActive` flag);
a no-longer-existing identity is rejected. -/
theorem requireAuth_refetch_checks_existence_only (secret now : Nat)
    (store : List UserDoc) (req : AuthRequest) (tok : SignedToken)
    (payload : JWTPayload) (hu : req.user = none)
    (ht : req.auth_token = some tok)
    (hv : verifyJWT secret now tok = Except.ok payload) :
    (requireAuth secret now store req).userStoreReads = 1 ∧
    (requireAuth secret now store req).result =
      (match store.find? (fun u => u._id == payload.id) with
       | none => Except.error (AppError.unauthorized
           "User not found. Please log in again.")
       | some u => Except.ok u) := by
  simp only [requireAuth, hu, ht, hv]
  cases store.find? (fun u => u._id == payload.id) <;> simp

/-- Witness for C3's amended theorem: the deactivated user of the C3
counterexample is re-fetched (one store read) and accepted because it
exists. -/
theorem requireAuth_refetch_checks_existence_only_witness :
    (requireAuth 0 0 [userC3] reqC3).userStoreReads = 1 ∧
    (requireAuth 0 0 [userC3] reqC3).result =
      (match [userC3].find? (fun u => u._id == payloadC3.id) with
       | none => Except.error (AppError.unauthorized
           "User not found. Please log in again.")
       | some u => Except.ok u) :=
  requireAuth_refetch_checks_existence_only 0 0 [userC3] reqC3
    (generateJWT 0 0 payloadC3) payloadC3 rfl rfl (by decide)

/-- C5: session-first short-circuit — a request with a session-attached
identity is accepted immediately with that identity, with zero Credential
Store reads and zero token verifications; and every request causes at
most one Credential Store read and at most one token verification. -/
theorem requireAuth_session_first (secret now : Nat)
    (store : List UserDoc) (req : AuthRequest) :
    (∀ u, req.user = some u →
      requireAuth secret now store req =
        { result := Except.ok u, clearedAuthToken := false,
          clearedAuthUser := false, userStoreReads := 0,
          tokenVerifications := 0 }) ∧
    (requireAuth secret now store req).userStoreReads ≤ 1 ∧
    (requireAuth secret now store req).tokenVerifications ≤ 1 := by
  refine ⟨fun u hu => by simp [requireAuth, hu], ?_⟩
  rcases hru : req.user with _ | u
  · rcases hrt : req.auth_token with _ | tok
    · simp [requireAuth, hru, hrt]
    · rcases hv : verifyJWT secret now tok with e | p
      · simp [requireAuth, hru, hrt, hv]
      · rcases hf : store.find? (fun u => u._id == p.id) with _ | u <;>
          simp [requireAuth, hru, hrt, hv, hf]
  · simp [requireAuth, hru]

/-- Witness for C5: a request carrying a session identity is accepted as
that identity with zero store reads, and the read bound holds there. -/
theorem requireAuth_session_first_witness :
    requireAuth 0 0 [] reqC5 =
      { result := Except.ok userC5, clearedAuthToken := false,
        clearedAuthUser := false, userStoreReads := 0,
        tokenVerifications := 0 } ∧
    (requireAuth 0 0 [] reqC5).userStoreReads ≤ 1 :=
  ⟨(requireAuth_session_first 0 0 [] reqC5).1 userC5 rfl,
   (requireAuth_session_first 0 0 [] reqC5).2.1⟩

/-- Appending one membership row for a pair that has no existing row
preserves the at-most-one-membership-per-pair bound. -/
theorem atMostOne_append_fresh (members : List Member) (nm : Member)
    (hinv : ∀ u w, (members.filter
      (fun m => m.userId == u && m.workspaceId == w)).length ≤ 1)
    (hnone : members.filter (fun m =>
      m.userId == nm.userId && m.workspaceId == nm.workspaceId) = []) :
    ∀ u w, ((members ++ [nm]).filter
      (fun m => m.userId == u && m.workspaceId == w)).length ≤ 1 := by
  intro u w
  rw [List.filter_append, List.length_append]
  by_cases h : (nm.userId == u && nm.workspaceId == w) = true
  · simp only [Bool.and_eq_true, beq_iff_eq] at h
    obtain ⟨hu, hw⟩ := h
    subst hu
    subst hw
    rw [hnone]
    simp
  · rw [Bool.not_eq_true] at h
    have hf : List.filter
        (fun m => m.userId == u && m.workspaceId == w) [nm] = [] := by
      simp [h]
    rw [hf]
    simpa using hinv u w

/-- C7: at-most-one-membership invariant — every state reachable by the
membership-creating operations satisfies at most one membership row per
(identity, workspace) pair, and joining by invite code rejects with
`BadRequestException` whenever a membership row for that pair already
exists. -/
theorem membership_at_most_one :
    (∀ db, Reachable db → atMostOneMembership db) ∧
    (∀ (db : DB) (uid : Nat) (code : String) (w : Workspace) (m : Member),
      db.workspaces.find? (fun ws => ws.inviteCode == code) = some w →
      m ∈ db.members → m.userId = uid → m.workspaceId = w._id →
      joinWorkspaceByInviteService db uid code =
        Except.error
          (AppError.badRequest "You are already a member of this workspace")) := by
  constructor
  · intro db h
    induction h with
    | init db hm =>
        intro u w
        simp [hm]
    | join db db' uid code wid r _ hjoin ih =>
        rcases hw : db.workspaces.find? (fun ws => ws.inviteCode == code)
          with _ | w0
        · simp only [joinWorkspaceByInviteService, hw] at hjoin
          exact Except.noConfusion hjoin
        · rcases hm : db.members.find?
              (fun m => m.userId == uid && m.workspaceId == w0._id)
            with _ | m0
          · rcases hr : db.roles.find? (fun rd => rd.name == Role.MEMBER)
              with _ | role
            · simp only [joinWorkspaceByInviteService, hw, hm, hr] at hjoin
              exact Except.noConfusion hjoin
            · simp only [joinWorkspaceByInviteService, hw, hm, hr,
                Except.ok.injEq, Prod.mk.injEq] at hjoin
              obtain ⟨hdb, -⟩ := hjoin
              subst hdb
              intro u w
              exact atMostOne_append_fresh db.members
                { userId := uid, workspaceId := w0._id, role := role._id }
                ih
                (List.filter_eq_nil_iff.mpr (fun x hx => by
                  simpa using List.find?_eq_none.mp hm x hx)) u w
          · simp only [joinWorkspaceByInviteService, hw, hm] at hjoin
            exact Except.noConfusion hjoin
    | create db db' uid freshId code w _ hfreshW hfreshM hcreate ih =>
        rcases hu : db.users.find? (fun u => u._id == uid) with _ | u0
        · simp only [createWorkspaceService, hu] at hcreate
          exact Except.noConfusion hcreate
        · rcases hr : db.roles.find? (fun rd => rd.name == Role.OWNER)
            with _ | role
          · simp only [createWorkspaceService, hu, hr] at hcreate
            exact Except.noConfusion hcreate
          · simp only [createWorkspaceService, hu, hr, Except.ok.injEq,
              Prod.mk.injEq] at hcreate
            obtain ⟨hdb, -⟩ := hcreate
            subst hdb
            intro uu ww
            exact atMostOne_append_fresh db.members
              { userId := uid, workspaceId := freshId, role := role._id }
              ih
              (List.filter_eq_nil_iff.mpr (fun x hx => by
                have hne := hfreshM x hx
                simp only [Bool.and_eq_true, beq_iff_eq]
                exact fun hcon => hne hcon.2)) uu ww
  · intro db uid code w m hw hm hmu hmw
    rcases hfind : db.members.find?
        (fun x => x.userId == uid && x.workspaceId == w._id) with _ | y
    · exact absurd (List.find?_eq_none.mp hfind m hm) (by simp [hmu, hmw])
    · simp only [joinWorkspaceByInviteService, hw, hfind]

/-- Witness for C7: a membership-free state is reachable and satisfies
the bound, and joining the workspace a user is already a member of is
rejected with the `BadRequestException`. -/
theorem membership_at_most_one_witness :
    ((dbC7init.members.filter
      (fun m => m.userId == 3 && m.workspaceId == 1)).length ≤ 1) ∧
    joinWorkspaceByInviteService dbC7 3 "x" =
      Except.error
        (AppError.badRequest "You are already a member of this workspace") :=
  ⟨membership_at_most_one.1 dbC7init (Reachable.init dbC7init rfl) 3 1,
   membership_at_most_one.2 dbC7 3 "x" { _id := 1, inviteCode := "x" }
     memberC7 (by decide) (List.mem_singleton.mpr rfl) rfl rfl⟩

/-- Witness for C8: logging out a logged-in request whose session destroy
fails still clears both cookies and answers 200, with the failure only
logged. -/
theorem logout_never_fails_witness :
    (logOutController true reqC8).ctx.cookies.auth_token = none ∧
    (logOutController true reqC8).ctx.cookies.auth_user = none ∧
    (logOutController true reqC8).status = 200 ∧
    (logOutController true reqC8).sessionErrorLogged =
      (true && (reqC8.session).isSome) :=
  logout_never_fails true reqC8

/-- Witness for C9: logging the concrete logged-in request out twice
yields the state of logging it out once, with cookies and session
absent. -/
theorem logout_idempotent_witness :
    (logOutController false (logOutController false reqC8).ctx).ctx =
      (logOutController false reqC8).ctx ∧
    (logOutController false reqC8).ctx.session = none ∧
    (logOutController false reqC8).ctx.cookies =
      { auth_token := none, auth_user := none } :=
  logout_idempotent false reqC8

end TeamSync
